import Mathlib

/-!
Verification of `mtpy/imaging/mtplot.py`, a façade module whose seven
functions each forward an open-ended keyword-argument bundle to one
collaborator plotting-class constructor and return the constructed object.

The embedding models Python keyword-argument bundles as association lists,
the collaborator constructors as a black-box environment (they live outside
this module and are stubbed, as the specification's testable properties
suggest), and each call as producing the constructor's result, the caller's
bundle after the call, and a log of constructor invocations recorded by the
stubs.
-/

namespace Mtplot

/-- Python values that may appear in a configuration bundle.  The façade
treats values opaquely, so a small universe of concrete values suffices. -/
inductive Value where
  | str : String → Value
  | num : Int → Value
  | bool : Bool → Value
  | none : Value
deriving DecidableEq, Repr

/-- A keyword-argument bundle: an association list of option names to
values, as unpacked by Python's double-star calling convention. -/
abbrev Kwargs := List (String × Value)

/-- The seven collaborator plotting classes imported at the top of the
module. -/
inductive PlotClass where
  | PlotResponse
  | PlotMultipleResponses
  | PlotPhaseTensor
  | PlotPhaseTensorPseudoSection
  | PlotPhaseTensorMaps
  | PlotStrike
  | PlotResPhasePseudoSection
deriving DecidableEq, Repr, Fintype

/-- A Python exception value, identified by its type name and message. -/
structure PyError where
  kind : String
  msg : String
deriving DecidableEq, Repr

/-- The observation state of a run: the log of constructor invocations
(class and received bundle) recorded by stubbed collaborator classes. -/
structure World where
  log : List (PlotClass × Kwargs)
deriving DecidableEq, Repr

/-- Black-box behavior of the collaborator constructors: given a class and
the bundle it receives, either an object or a raised error. -/
abbrev CtorEnv (Obj : Type) := PlotClass → Kwargs → Except PyError Obj

/-- Semantics of evaluating `cls(**kwargs)` inside a façade body: the
constructor of `c` is invoked once with the bundle, the invocation is
recorded, the constructor's result (object or raised error) is the result
of the expression, and the caller's bundle is untouched. -/
def construct {Obj : Type} (env : CtorEnv Obj) (c : PlotClass) (kwargs : Kwargs)
    (w : World) : Except PyError Obj × Kwargs × World :=
  (env c kwargs, kwargs, ⟨w.log ++ [(c, kwargs)]⟩)

/-- Module-level alias bound by `from ... import PlotMultipleResponses as
plotnresponses`. -/
def plotnresponses : PlotClass := .PlotMultipleResponses

/-- Module-level alias bound by `from ... import PlotResPhasePseudoSection
as plotrpps`. -/
def plotrpps : PlotClass := .PlotResPhasePseudoSection

/-- Module-level alias bound by `from ... import PlotPhaseTensor as
plotpt`. -/
def plotpt : PlotClass := .PlotPhaseTensor

/-- Module-level alias bound by `from ... import
PlotPhaseTensorPseudoSection as plotptps`. -/
def plotptps : PlotClass := .PlotPhaseTensorPseudoSection

/-- Module-level alias bound by `from ... import PlotPhaseTensorMaps as
plotptmaps`. -/
def plotptmaps : PlotClass := .PlotPhaseTensorMaps

/-- Module-level alias bound by `from ... import PlotResponse as
plotresponse`. -/
def plotresponse : PlotClass := .PlotResponse

/-- Module-level alias bound by `from ... import PlotStrike as
plotstrike`. -/
def plotstrike : PlotClass := .PlotStrike

/-- Body of `plot_mt_response`: `return plotresponse(**kwargs)`. -/
def plot_mt_response {Obj : Type} (env : CtorEnv Obj) (kwargs : Kwargs)
    (w : World) : Except PyError Obj × Kwargs × World :=
  construct env plotresponse kwargs w

/-- Body of `plot_multiple_mt_responses`: `return plotnresponses(**kwargs)`. -/
def plot_multiple_mt_responses {Obj : Type} (env : CtorEnv Obj) (kwargs : Kwargs)
    (w : World) : Except PyError Obj × Kwargs × World :=
  construct env plotnresponses kwargs w

/-- Body of `plot_pt`: `return plotpt(**kwargs)`. -/
def plot_pt {Obj : Type} (env : CtorEnv Obj) (kwargs : Kwargs)
    (w : World) : Except PyError Obj × Kwargs × World :=
  construct env plotpt kwargs w

/-- Body of `plot_pt_pseudosection`: `return plotptps(**kwargs)`. -/
def plot_pt_pseudosection {Obj : Type} (env : CtorEnv Obj) (kwargs : Kwargs)
    (w : World) : Except PyError Obj × Kwargs × World :=
  construct env plotptps kwargs w

/-- Body of `plot_pt_map`: `return plotptmaps(**kwargs)`. -/
def plot_pt_map {Obj : Type} (env : CtorEnv Obj) (kwargs : Kwargs)
    (w : World) : Except PyError Obj × Kwargs × World :=
  construct env plotptmaps kwargs w

/-- Body of `plot_strike`: `return plotstrike(**kwargs)`. -/
def plot_strike {Obj : Type} (env : CtorEnv Obj) (kwargs : Kwargs)
    (w : World) : Except PyError Obj × Kwargs × World :=
  construct env plotstrike kwargs w

/-- Body of `plot_resphase_pseudosection`: `return plotrpps(**kwargs)`. -/
def plot_resphase_pseudosection {Obj : Type} (env : CtorEnv Obj) (kwargs : Kwargs)
    (w : World) : Except PyError Obj × Kwargs × World :=
  construct env plotrpps kwargs w

/-- Enumeration of the module's seven forwarding functions. -/
inductive FacadeFn where
  | plot_mt_response
  | plot_multiple_mt_responses
  | plot_pt
  | plot_pt_pseudosection
  | plot_pt_map
  | plot_strike
  | plot_resphase_pseudosection
deriving DecidableEq, Repr, Fintype

/-- The Python name of each forwarding function. -/
def fnName : FacadeFn → String
  | .plot_mt_response => "plot_mt_response"
  | .plot_multiple_mt_responses => "plot_multiple_mt_responses"
  | .plot_pt => "plot_pt"
  | .plot_pt_pseudosection => "plot_pt_pseudosection"
  | .plot_pt_map => "plot_pt_map"
  | .plot_strike => "plot_strike"
  | .plot_resphase_pseudosection => "plot_resphase_pseudosection"

/-- Dispatch from a function name to the embedded body of that function. -/
def runBody {Obj : Type} : FacadeFn → CtorEnv Obj → Kwargs → World →
    Except PyError Obj × Kwargs × World
  | .plot_mt_response => plot_mt_response
  | .plot_multiple_mt_responses => plot_multiple_mt_responses
  | .plot_pt => plot_pt
  | .plot_pt_pseudosection => plot_pt_pseudosection
  | .plot_pt_map => plot_pt_map
  | .plot_strike => plot_strike
  | .plot_resphase_pseudosection => plot_resphase_pseudosection

/-- The class each function's body names, through its import alias. -/
def target : FacadeFn → PlotClass
  | .plot_mt_response => plotresponse
  | .plot_multiple_mt_responses => plotnresponses
  | .plot_pt => plotpt
  | .plot_pt_pseudosection => plotptps
  | .plot_pt_map => plotptmaps
  | .plot_strike => plotstrike
  | .plot_resphase_pseudosection => plotrpps

/-- The plot-type-to-class mapping as the specification words it:
single-station response to PlotResponse, multi-station response to
PlotMultipleResponses, phase-tensor ellipse to PlotPhaseTensor,
phase-tensor pseudo-section to PlotPhaseTensorPseudoSection, phase-tensor
map view to PlotPhaseTensorMaps, strike angle to PlotStrike, and
resistivity/phase pseudo-section to PlotResPhasePseudoSection. -/
def specTarget : FacadeFn → PlotClass
  | .plot_mt_response => .PlotResponse
  | .plot_multiple_mt_responses => .PlotMultipleResponses
  | .plot_pt => .PlotPhaseTensor
  | .plot_pt_pseudosection => .PlotPhaseTensorPseudoSection
  | .plot_pt_map => .PlotPhaseTensorMaps
  | .plot_strike => .PlotStrike
  | .plot_resphase_pseudosection => .PlotResPhasePseudoSection

/-- The error raised by the Python calling convention when a function
declared with only a double-star parameter receives a positional
argument. -/
def positionalError (f : FacadeFn) : PyError :=
  ⟨"TypeError", fnName f ++ "() takes 0 positional arguments"⟩

/-- Python call semantics for a function declared `def f(**kwargs)`:
positional arguments are rejected with a TypeError before the body runs;
otherwise the keyword dictionary becomes the body's bundle. -/
def callFacade {Obj : Type} (f : FacadeFn) (pos : List Value) (kw : Kwargs)
    (env : CtorEnv Obj) (w : World) : Except PyError Obj × Kwargs × World :=
  if pos.isEmpty then runBody f env kw w
  else (.error (positionalError f), kw, w)

/-- The constructor invocations a single call adds to the log. -/
def callTrace {Obj : Type} (f : FacadeFn) (env : CtorEnv Obj) (kw : Kwargs)
    (w : World) : List (PlotClass × Kwargs) :=
  ((runBody f env kw w).2.2.log).drop w.log.length

/-- The module's public function table: every `def` the module makes. -/
def moduleFunctions : List (String × FacadeFn) :=
  [("plot_mt_response", .plot_mt_response),
   ("plot_multiple_mt_responses", .plot_multiple_mt_responses),
   ("plot_pt", .plot_pt),
   ("plot_pt_pseudosection", .plot_pt_pseudosection),
   ("plot_pt_map", .plot_pt_map),
   ("plot_strike", .plot_strike),
   ("plot_resphase_pseudosection", .plot_resphase_pseudosection)]

/-- Shared unfolding lemma: each body is one constructor invocation of its
target class with the bundle, recorded in the log, the bundle returned
unchanged. -/
theorem runBody_eq {Obj : Type} (f : FacadeFn) (env : CtorEnv Obj)
    (kw : Kwargs) (w : World) :
    runBody f env kw w = (env (target f) kw, kw, ⟨w.log ++ [(target f, kw)]⟩) := by
  cases f <;> rfl

/-- Shared lemma: the alias-resolved target agrees with the specification's
mapping. -/
theorem target_eq_specTarget (f : FacadeFn) : target f = specTarget f := by
  cases f <;> rfl

/-- Shared lemma: a call's trace is exactly one invocation of the target
class with the caller's bundle. -/
theorem callTrace_eq {Obj : Type} (f : FacadeFn) (env : CtorEnv Obj)
    (kw : Kwargs) (w : World) :
    callTrace f env kw w = [(target f, kw)] := by
  unfold callTrace
  rw [runBody_eq]
  exact List.drop_left w.log [(target f, kw)]

/-- Claim C1: every forwarding function, on any configuration bundle,
performs exactly one constructor invocation, of its own target class, with
the bundle passed through unmodified, and returns exactly the object (or
error) the constructor produced. -/
theorem forward_single_invocation_passthrough {Obj : Type} (f : FacadeFn)
    (env : CtorEnv Obj) (kw : Kwargs) (w : World) :
    (runBody f env kw w).2.2.log = w.log ++ [(target f, kw)] ∧
    (runBody f env kw w).1 = env (target f) kw := by
  rw [runBody_eq]
  exact ⟨rfl, rfl⟩

/-- Claim C2: the façade realizes the specification's one-to-one mapping
from plot type to collaborator constructor: every call invokes exactly the
class the specification assigns to that function and no other, and the
mapping is injective. -/
theorem dispatch_one_to_one :
    (∀ (Obj : Type) (f : FacadeFn) (env : CtorEnv Obj) (kw : Kwargs) (w : World),
      (callTrace f env kw w).map Prod.fst = [specTarget f]) ∧
    Function.Injective specTarget := by
  constructor
  · intro Obj f env kw w
    rw [callTrace_eq, target_eq_specTarget]
    rfl
  · intro a b h
    cases a <;> cases b <;> simp_all [specTarget]

/-- Claim C3: the caller's bundle is returned unchanged by every call: no
field is mutated, filtered, or defaulted by the façade. -/
theorem bundle_roundtrip_identity {Obj : Type} (f : FacadeFn)
    (env : CtorEnv Obj) (kw : Kwargs) (w : World) :
    (runBody f env kw w).2.1 = kw := by
  rw [runBody_eq]

/-- Claim C4: a forwarding call raises if and only if the target
constructor raises on that bundle, and the error observed is the
constructor's error unchanged. -/
theorem error_propagates_unchanged {Obj : Type} (f : FacadeFn)
    (env : CtorEnv Obj) (kw : Kwargs) (w : World) (e : PyError) :
    (runBody f env kw w).1 = Except.error e ↔
      env (target f) kw = Except.error e := by
  rw [runBody_eq]

/-- Claim C5: given a keyword-only bundle, every forwarding function
reaches its constructor with that bundle, whatever the bundle contains,
and any error of the call originated in the constructor, never in the
façade. -/
theorem no_facade_validation {Obj : Type} (f : FacadeFn) (env : CtorEnv Obj)
    (kw : Kwargs) (w : World) :
    (callFacade f [] kw env w).2.2.log = w.log ++ [(target f, kw)] ∧
    ∀ e : PyError, (callFacade f [] kw env w).1 = Except.error e →
      env (target f) kw = Except.error e := by
  constructor
  · show (runBody f env kw w).2.2.log = _
    rw [runBody_eq]
  · intro e he
    have h1 : (runBody f env kw w).1 = Except.error e := he
    rwa [runBody_eq] at h1

/-- Claim C6: calls are stateless and deterministic: whatever invocation
log precedes a call, a call of the same function with an equal bundle
returns the same result and produces the identical single constructor
invocation, of the same class with the same arguments. -/
theorem stateless_deterministic {Obj : Type} (f : FacadeFn)
    (env : CtorEnv Obj) (kw : Kwargs) (w1 w2 : World) :
    (runBody f env kw w1).1 = (runBody f env kw w2).1 ∧
    callTrace f env kw w1 = callTrace f env kw w2 ∧
    callTrace f env kw w1 = [(target f, kw)] := by
  rw [callTrace_eq, callTrace_eq, runBody_eq, runBody_eq]
  exact ⟨rfl, rfl, rfl⟩

/-- Claim C7: the module's public surface is exactly the seven forwarding
functions: seven entries, distinct names, and every forwarding function
present under its own name. -/
theorem public_surface_is_seven :
    moduleFunctions.length = 7 ∧
    (moduleFunctions.map Prod.fst).Nodup ∧
    ∀ f : FacadeFn, (fnName f, f) ∈ moduleFunctions := by
  refine ⟨rfl, by decide, ?_⟩
  intro f
  cases f <;> simp [moduleFunctions, fnName]

/-- Claim C8: supplying any positional argument makes the call fail with a
TypeError from the calling convention, and the constructor is never
invoked (the log is unchanged). -/
theorem positional_args_rejected (Obj : Type) (f : FacadeFn)
    (pos : List Value) (kw : Kwargs) (env : CtorEnv Obj) (w : World)
    (h : pos ≠ []) :
    (callFacade f pos kw env w).1 = Except.error (positionalError f) ∧
    (positionalError f).kind = "TypeError" ∧
    (callFacade f pos kw env w).2.2.log = w.log := by
  cases pos with
  | nil => exact absurd rfl h
  | cons a l => exact ⟨rfl, rfl, rfl⟩

/-- Witness for claim C8 at a concrete input: one positional argument to
`plot_mt_response` with an empty keyword bundle, a stub environment and an
empty log. -/
theorem positional_args_rejected_witness :
    ([Value.num 1] : List Value) ≠ [] ∧
    ((callFacade FacadeFn.plot_mt_response [Value.num 1] []
        (fun _ _ => Except.ok ()) ⟨[]⟩).1
        = Except.error (positionalError FacadeFn.plot_mt_response) ∧
      (positionalError FacadeFn.plot_mt_response).kind = "TypeError" ∧
      (callFacade FacadeFn.plot_mt_response [Value.num 1] []
        (fun _ _ => Except.ok ()) ⟨[]⟩).2.2.log = (⟨[]⟩ : World).log) :=
  ⟨by decide,
    positional_args_rejected Unit FacadeFn.plot_mt_response [Value.num 1] []
      (fun _ _ => Except.ok ()) ⟨[]⟩ (by decide)⟩

/-- Claim C9: which collaborator class a call invokes depends only on which
function was called, never on the bundle, the environment, or any prior
history: any two calls of the same function invoke the same class list. -/
theorem dispatch_noninterference {Obj1 Obj2 : Type} (f : FacadeFn)
    (env1 : CtorEnv Obj1) (env2 : CtorEnv Obj2) (kw1 kw2 : Kwargs)
    (w1 w2 : World) :
    (callTrace f env1 kw1 w1).map Prod.fst
      = (callTrace f env2 kw2 w2).map Prod.fst := by
  rw [callTrace_eq, callTrace_eq]
  rfl

/-- Claim C10: a call with no arguments at all invokes the target
constructor with the empty bundle and returns its result: no defaults are
injected. -/
theorem empty_call_empty_bundle {Obj : Type} (f : FacadeFn)
    (env : CtorEnv Obj) (w : World) :
    (callFacade f [] [] env w).2.2.log = w.log ++ [(target f, [])] ∧
    (callFacade f [] [] env w).1 = env (target f) [] := by
  show (runBody f env [] w).2.2.log = _ ∧ (runBody f env [] w).1 = _
  rw [runBody_eq]
  exact ⟨rfl, rfl⟩

end Mtplot
